import Mathlib

/-
Verification of the gtl GazeApi session engine (src/src/gazeapi.cpp).

The engine is embedded shallowly: each C++ member function becomes a pure
Lean function from the engine state (and the decoded inputs it consumes) to
the new engine state together with the list of externally visible actions it
performs (transport sends, listener notifications).  The Transport, the JSON
codec (gazeapi_parser.hpp) and the listener containers are external
collaborators of this translation unit; they are modelled at their boundary:
a decoded incoming message is a `RawMessage` carrying the outcome of each
Parser call, and each listener fan-out is recorded as one `Action`.
-/

namespace gtl

/-- Message category enum (`GazeApiCategory` in gazeapi_types.h). -/
inductive GazeApiCategory
  | GAC_TRACKER
  | GAC_CALIBRATION
  | GAC_UNKNOWN
deriving DecidableEq, Repr

/-- Request kind enum (`GazeApiRequest`). -/
inductive GazeApiRequest
  | GAR_GET
  | GAR_SET
  | GAR_START
  | GAR_POINTSTART
  | GAR_POINTEND
  | GAR_ABORT
  | GAR_CLEAR
  | GAR_UNKNOWN
deriving DecidableEq, Repr

/-- Status code enum (`GazeApiStatusCode`): ok, error, and the three
notification variants. -/
inductive GazeApiStatusCode
  | GASC_OK
  | GASC_ERROR
  | GASC_CALIBRATION_CHANGE
  | GASC_DISPLAY_CHANGE
  | GASC_TRACKER_STATE_CHANGE
deriving DecidableEq, Repr

/-- Modelled from the spec: `ServerState` (gazeapi_types.h is not part of the
sources) — version, tracker connection state, frame rate, calibration flags.
Numeric fields are modelled as naturals; the engine only reads `version` and
`trackerstate`. -/
structure ServerState where
  version : Nat := 0
  trackerstate : Nat := 0
  framerate : Nat := 0
  iscalibrated : Bool := false
  iscalibrating : Bool := false
deriving DecidableEq, Repr

/-- Modelled from the spec: `GazeData` — timestamp, state bitmask, raw and
smoothed coordinates.  The engine replaces it wholesale and never reads its
fields, so the exact field set is irrelevant to the dispatch logic. -/
structure GazeData where
  time : Nat := 0
  state : Nat := 0
  rawx : Int := 0
  rawy : Int := 0
  avgx : Int := 0
  avgy : Int := 0
deriving DecidableEq, Repr

/-- Modelled from the spec: `CalibResult` — success flag plus
per-calibration-point quality data (abstracted to a list). -/
structure CalibResult where
  result : Bool := false
  calibpoints : List Int := []
deriving DecidableEq, Repr

/-- `CalibResult::clear()`: reset to the default (unsuccessful, empty). -/
def CalibResult.clear (_ : CalibResult) : CalibResult := {}

/-- `Screen`: screen index plus pixel and physical dimensions, the five
fields the engine serialises in `set_screen`.  Compared by value. -/
structure Screen where
  screenindex : Int := 0
  screenresw : Int := 0
  screenresh : Int := 0
  screenpsyw : Int := 0
  screenpsyh : Int := 0
deriving DecidableEq, Repr

/-- The calibration progress tracker (`class CalibrationProxy`). -/
structure CalibrationProxy where
  m_point_count : Nat
  m_processed_points : Nat
  m_is_calibrating : Bool
deriving DecidableEq, Repr

/-- `CalibrationProxy()` constructor: counts zero, not calibrating. -/
def CalibrationProxy.init : CalibrationProxy :=
  { m_point_count := 0, m_processed_points := 0, m_is_calibrating := false }

/-- `CalibrationProxy::start_calibration`: records the total point count and
raises the calibrating flag.  (It does not touch `m_processed_points`.) -/
def CalibrationProxy.start_calibration (c : CalibrationProxy) (point_count : Nat) :
    CalibrationProxy :=
  { c with m_point_count := point_count, m_is_calibrating := true }

/-- `CalibrationProxy::point_end`: one more point processed. -/
def CalibrationProxy.point_end (c : CalibrationProxy) : CalibrationProxy :=
  { c with m_processed_points := c.m_processed_points + 1 }

/-- `CalibrationProxy::is_done`. -/
def CalibrationProxy.is_done (c : CalibrationProxy) : Bool :=
  c.m_processed_points == c.m_point_count

/-- `CalibrationProxy::is_calibrating`. -/
def CalibrationProxy.is_calibrating (c : CalibrationProxy) : Bool :=
  c.m_is_calibrating

/-- `CalibrationProxy::get_progress`: processed/total, with an explicit
guard returning 0 when the total is 0.  The C++ division is on doubles; it is
modelled exactly on the rationals (both operands are integral, and every
claim about it concerns either the guarded 0 case or small exact values). -/
def CalibrationProxy.get_progress (c : CalibrationProxy) : ℚ :=
  if 0 = c.m_point_count then 0
  else (c.m_processed_points : ℚ) / (c.m_point_count : ℚ)

/-- `CalibrationProxy::clear`: zero both counts, drop the flag. -/
def CalibrationProxy.clear (_ : CalibrationProxy) : CalibrationProxy :=
  { m_point_count := 0, m_processed_points := 0, m_is_calibrating := false }

/-- Engine lifecycle states (`enum ApiState`). -/
inductive ApiState
  | AS_STOPPED
  | AS_RUNNING
  | AS_ISCALIBRATING
deriving DecidableEq, Repr

/-- Fixed per-request-kind correlation ids (the `SR_*` enum). -/
def SR_ERROR : Int := 1
def SR_GET_TRACKER_STATE : Int := 2
def SR_GET_FRAME : Int := 4
def SR_GET_CALIB_RESULT : Int := 8
def SR_GET_CHANGES : Int := 16
def SR_SET_VERSION : Int := 32
def SR_SET_SCREEN : Int := 128
def SR_CALIB_START : Int := 256
def SR_CALIB_POINT_START : Int := 512

/-- The API version this SDK requires (`enum ApiVersion VERSION = 2`). -/
def VERSION : Nat := 2

/-- The decoded envelope of an incoming message (`struct Message`). -/
structure Message where
  m_category : GazeApiCategory := .GAC_UNKNOWN
  m_request : GazeApiRequest := .GAR_UNKNOWN
  m_statuscode : GazeApiStatusCode := .GASC_ERROR
  m_id : Int := -1
  m_description : String := ""
deriving DecidableEq, Repr

/-- `Message::is(GazeApiCategory)`. -/
def Message.isCategory (m : Message) (c : GazeApiCategory) : Bool :=
  m.m_category == c

/-- `Message::is(GazeApiRequest)`. -/
def Message.isRequest (m : Message) (r : GazeApiRequest) : Bool :=
  m.m_request == r

/-- `Message::is(GazeApiStatusCode)`. -/
def Message.isStatus (m : Message) (s : GazeApiStatusCode) : Bool :=
  m.m_statuscode == s

/-- `Message::is_notification`: one of the three notification status codes. -/
def Message.notificationQ (m : Message) : Bool :=
  m.isStatus .GASC_CALIBRATION_CHANGE || m.isStatus .GASC_DISPLAY_CHANGE ||
    m.isStatus .GASC_TRACKER_STATE_CHANGE

/-- `Message::has_id`. -/
def Message.has_id (m : Message) : Bool :=
  m.m_id >= 0

/-- The outgoing requests the engine builds (each constructor mirrors one of
the JSON request bodies assembled in gazeapi.cpp, keyed by the parameters
actually serialised). -/
inductive Request
  | getVersion
  | setVersion (version : Nat)
  | setScreen (screen : Screen)
  | getTrackerState
  | getChanges (values : List String)
  | calibrationStart (pointcount : Nat)
  | calibrationClear
  | calibrationAbort
  | calibrationPointStart (x y : Int)
  | calibrationPointEnd
deriving DecidableEq, Repr

/-- Modelled from the spec: `Socket::get_id` (gazeapi_socket.hpp is not part
of the sources) — the transport contract `assignCorrelationId` maps a request
body to its fixed per-kind id, and requests serialised without an `id` field
yield -1. -/
def Request.get_id : Request → Int
  | .getVersion => -1
  | .setVersion _ => SR_SET_VERSION
  | .setScreen _ => SR_SET_SCREEN
  | .getTrackerState => SR_GET_TRACKER_STATE
  | .getChanges _ => SR_GET_CHANGES
  | .calibrationStart _ => SR_CALIB_START
  | .calibrationClear => -1
  | .calibrationAbort => -1
  | .calibrationPointStart _ _ => SR_CALIB_POINT_START
  | .calibrationPointEnd => -1

/-- One externally visible effect of the engine: a transport send or one
listener-category fan-out (one action per notification event; the listener
registry then invokes each subscriber of that category in order). -/
inductive Action
  | SocketConnect
  | SocketDisconnect
  | SocketSend (r : Request)
  | SocketSendSync (r : Request)
  | NotifyGaze (g : GazeData)
  | NotifyCalibResult (success : Bool) (r : CalibResult)
  | NotifyScreenChanged (s : Screen)
  | NotifyTrackerConnection (trackerstate : Nat)
  | NotifyCalibrationStarted
  | NotifyCalibrationProgress (p : ℚ)
  | NotifyCalibProcessResult (success : Bool) (r : CalibResult)
  | NotifyConnectionState (connected : Bool)
deriving DecidableEq, Repr

/-- Payload of a tracker/get reply as produced by
`Parser::parse_server_state`: the resulting server state and screen (the
parser fills them starting from the current snapshots), plus the optional
gaze sample and optional calibration result (`has_gaze_data`,
`has_calib_result`). -/
structure TrackerGetPayload where
  server_state : ServerState
  gaze : Option GazeData
  calib : Option CalibResult
  screen : Screen
deriving DecidableEq, Repr

/-- Modelled from the spec: the codec boundary.  A decoded incoming message
is represented by the outcome of each `Parser::parse_*` call on it: `none`
means that parse step fails (field absent or unparseable).
`calib_payload = none` models `parse_calib_result` failing, `some none`
models success with `has_calib_result = false`. -/
structure RawMessage where
  id : Option Int := none
  description : String := ""
  category : Option GazeApiCategory := none
  statuscode : Option GazeApiStatusCode := none
  request : Option GazeApiRequest := none
  tracker_payload : Option TrackerGetPayload := none
  calib_payload : Option (Option CalibResult) := none
deriving DecidableEq, Repr

/-- The engine state (`class GazeApi::Engine` data members; the socket and
mutexes live outside the state — sends appear as actions, and every lock
protected update is an atomic whole-value replacement here). -/
structure Engine where
  m_state : ApiState
  m_calibration_proxy : CalibrationProxy
  m_host : String
  m_port : String
  m_server_proxy : ServerState
  m_gaze_data : GazeData
  m_calib_result : CalibResult
  m_screen : Screen
  m_sync_requests : List (Int × Message)
deriving DecidableEq, Repr

/-- Reading `m_sync_requests[id]`: `std::map::operator[]` yields the stored
message, or a default-constructed one when the key is absent. -/
def mapFind (m : List (Int × Message)) (k : Int) : Message :=
  match m.find? (fun p => p.1 == k) with
  | some p => p.2
  | none => {}

/-- Writing `m_sync_requests[id] = msg` (or resetting the slot in place). -/
def mapInsert (m : List (Int × Message)) (k : Int) (v : Message) :
    List (Int × Message) :=
  (k, v) :: m.filter (fun p => p.1 != k)

/-- The `Engine` constructor: stopped, fresh proxy, zeroed snapshots. -/
def Engine.initial : Engine :=
  { m_state := .AS_STOPPED
    m_calibration_proxy := CalibrationProxy.init
    m_host := ""
    m_port := ""
    m_server_proxy := {}
    m_gaze_data := {}
    m_calib_result := {}
    m_screen := {}
    m_sync_requests := [] }

/-- `Engine::send_sync`: when not stopped and the message carries a
correlation id, reset that correlator slot and hand the message to the
blocking transport send; otherwise do nothing. -/
def Engine.send_sync (e : Engine) (r : Request) : Engine × List Action :=
  let id := r.get_id
  if e.m_state ≠ ApiState.AS_STOPPED ∧ id ≠ -1 then
    ({ e with m_sync_requests := mapInsert e.m_sync_requests id {} },
      [Action.SocketSendSync r])
  else (e, [])

/-- `Engine::send_async`: fire-and-forget send, dropped while stopped. -/
def Engine.send_async (e : Engine) (r : Request) : Engine × List Action :=
  if e.m_state ≠ ApiState.AS_STOPPED then (e, [Action.SocketSend r])
  else (e, [])

/-- `Engine::disconnect`: if not already stopped, transition to stopped and
tell the transport to disconnect. -/
def Engine.disconnect (e : Engine) : Engine × List Action :=
  if e.m_state ≠ ApiState.AS_STOPPED then
    ({ e with m_state := ApiState.AS_STOPPED }, [Action.SocketDisconnect])
  else (e, [])

/-- `Engine::is_running`. -/
def Engine.is_running (e : Engine) : Bool :=
  e.m_state == ApiState.AS_RUNNING

/-- The field list the dispatcher requests after each notification variant
(the `switch` in `Engine::parse`; the dead `default` branch leaves the list
empty). -/
def notificationValues : GazeApiStatusCode → List String
  | .GASC_CALIBRATION_CHANGE => ["calibresult", "iscalibrated", "iscalibrating"]
  | .GASC_DISPLAY_CHANGE =>
      ["screenindex", "screenresw", "screenresh", "screenpsyw", "screenpsyh"]
  | .GASC_TRACKER_STATE_CHANGE => ["trackerstate"]
  | _ => []

/-- The tracker/get reply branch of `Engine::parse`: update the server-state
snapshot, then (in order) replace-and-notify gaze if present,
replace-and-notify the calibration result if present, replace-and-notify the
screen if its value changed, and notify the tracker-state transition if the
connection state changed (the change is detected against the prior snapshot,
the notified value is the freshly stored one). -/
def Engine.dispatchTrackerGet (e : Engine) (p : TrackerGetPayload) :
    Engine × List Action :=
  let server_state := p.server_state
  let screen := p.screen
  let has_state_changed :=
    server_state.trackerstate ≠ e.m_server_proxy.trackerstate
  let e1 := { e with m_server_proxy := server_state }
  let step2 : Engine × List Action :=
    match p.gaze with
    | some g => ({ e1 with m_gaze_data := g }, [Action.NotifyGaze g])
    | none => (e1, [])
  let e2 := step2.1
  let step3 : Engine × List Action :=
    match p.calib with
    | some cr =>
        ({ e2 with m_calib_result := cr },
          [Action.NotifyCalibResult cr.result cr])
    | none => (e2, [])
  let e3 := step3.1
  let step4 : Engine × List Action :=
    if screen ≠ e3.m_screen then
      ({ e3 with m_screen := screen }, [Action.NotifyScreenChanged screen])
    else (e3, [])
  let e4 := step4.1
  let a5 : List Action :=
    if has_state_changed then
      [Action.NotifyTrackerConnection e4.m_server_proxy.trackerstate]
    else []
  (e4, step2.2 ++ step3.2 ++ step4.2 ++ a5)

/-- The calibration-category branch of `Engine::parse`, keyed on the request
kind: start → notify calibration began; point-end → advance the progress
tracker, publish the progress, then handle an optional final result (on
success replace-and-notify the calibration-result snapshot and clear the
tracker; in either case notify the process listeners with the raw result);
abort → clear the tracker; clear → clear the calibration-result snapshot. -/
def Engine.dispatchCalibration (e : Engine) (reply : Message)
    (calib_payload : Option (Option CalibResult)) : Engine × List Action :=
  if reply.isRequest .GAR_START then
    (e, [Action.NotifyCalibrationStarted])
  else if reply.isRequest .GAR_POINTEND then
    let proxy := e.m_calibration_proxy.point_end
    let progress := proxy.get_progress
    let e1 := { e with m_calibration_proxy := proxy }
    let a0 := [Action.NotifyCalibrationProgress progress]
    match calib_payload with
    | none => (e1, a0)
    | some none => (e1, a0)
    | some (some cr) =>
        if cr.result then
          let e2 := { e1 with m_calib_result := cr }
          let a1 := [Action.NotifyCalibResult e2.m_calib_result.result
                       e2.m_calib_result]
          let e3 := { e2 with
            m_calibration_proxy := e2.m_calibration_proxy.clear }
          (e3, a0 ++ a1 ++ [Action.NotifyCalibProcessResult cr.result cr])
        else (e1, a0 ++ [Action.NotifyCalibProcessResult cr.result cr])
  else if reply.isRequest .GAR_ABORT then
    ({ e with m_calibration_proxy := e.m_calibration_proxy.clear }, [])
  else if reply.isRequest .GAR_CLEAR then
    ({ e with m_calib_result := e.m_calib_result.clear }, [])
  else (e, [])

/-- `Engine::parse`: classify and dispatch one decoded incoming message.
Returns the envelope it filled in (the caller stores it in the correlator),
the updated engine state, and the visible actions.  Mirrors the source order:
id/description first, then category, status code, the error-status discard,
the notification follow-up query, the request kind, and finally the
per-(category, request) dispatch. -/
def Engine.parse (e : Engine) (raw : RawMessage) :
    Message × Engine × List Action :=
  let reply0 : Message :=
    { m_id := raw.id.getD (-1), m_description := raw.description }
  match raw.category with
  | none => (reply0, e, [])
  | some cat =>
    let reply1 := { reply0 with m_category := cat }
    match raw.statuscode with
    | none => (reply1, e, [])
    | some sc =>
      let reply2 := { reply1 with m_statuscode := sc }
      if reply2.isStatus .GASC_ERROR && !reply2.notificationQ then
        (reply2, e, [])
      else if reply2.notificationQ then
        let step := e.send_sync (.getChanges (notificationValues sc))
        (reply2, step.1, step.2)
      else
        match raw.request with
        | none => (reply2, e, [])
        | some req =>
          let reply3 := { reply2 with m_request := req }
          if reply3.isCategory .GAC_TRACKER then
            if reply3.isRequest .GAR_SET then (reply3, e, [])
            else if reply3.isRequest .GAR_GET then
              match raw.tracker_payload with
              | none => (reply3, e, [])
              | some p =>
                  let step := e.dispatchTrackerGet p
                  (reply3, step.1, step.2)
            else (reply3, e, [])
          else if reply3.isCategory .GAC_CALIBRATION then
            let step := e.dispatchCalibration reply3 raw.calib_payload
            (reply3, step.1, step.2)
          else (reply3, e, [])

/-- `Engine::on_message`: parse the message, then store the envelope in the
correlator when it carries an id (unblocking a waiting synchronous call). -/
def Engine.on_message (e : Engine) (raw : RawMessage) : Engine × List Action :=
  let step := e.parse raw
  let reply := step.1
  let e2 := step.2.1
  if reply.has_id then
    ({ e2 with m_sync_requests := mapInsert e2.m_sync_requests reply.m_id reply },
      step.2.2)
  else (e2, step.2.2)

/-- `Engine::on_disconnected`: route through `disconnect` and notify the
connection-state listeners with `false`. -/
def Engine.on_disconnected (e : Engine) : Engine × List Action :=
  let step := e.disconnect
  (step.1, step.2 ++ [Action.NotifyConnectionState false])

/-- `Engine::get_default_version`: save and zero the stored version, send the
(id-less) version query, let the receive context dispatch the reply during
the bounded poll (`reply`, dispatched only if the send went out; `none`
models the poll timing out), then swap back: the observed version is
returned and the saved one is restored. -/
def Engine.get_default_version (e : Engine) (reply : Option RawMessage) :
    Nat × Engine × List Action :=
  let version := e.m_server_proxy.version
  let e1 := { e with m_server_proxy := { e.m_server_proxy with version := 0 } }
  let step := e1.send_async .getVersion
  let step2 : Engine × List Action :=
    if step.2.isEmpty then (step.1, [])
    else
      match reply with
      | some r => step.1.on_message r
      | none => (step.1, [])
  let e2 := step2.1
  let ret := e2.m_server_proxy.version
  let e3 := { e2 with m_server_proxy := { e2.m_server_proxy with version := version } }
  (ret, e3, step.2 ++ step2.2)

/-- `Engine::set_version`: synchronous set request; during the blocking send
the receive context dispatches the correlated reply (`reply`, applied only
if the send went out), then the correlator slot's status decides success. -/
def Engine.set_version_op (e : Engine) (version : Nat)
    (reply : Option RawMessage) : Bool × Engine × List Action :=
  let step := e.send_sync (.setVersion version)
  let step2 : Engine × List Action :=
    if step.2.isEmpty then (step.1, [])
    else
      match reply with
      | some r => step.1.on_message r
      | none => (step.1, [])
  let e2 := step2.1
  (((mapFind e2.m_sync_requests SR_SET_VERSION).isStatus .GASC_OK),
    e2, step.2 ++ step2.2)

/-- `Engine::set_screen`: same synchronous pattern with the screen slot. -/
def Engine.set_screen_op (e : Engine) (screen : Screen)
    (reply : Option RawMessage) : Bool × Engine × List Action :=
  let step := e.send_sync (.setScreen screen)
  let step2 : Engine × List Action :=
    if step.2.isEmpty then (step.1, [])
    else
      match reply with
      | some r => step.1.on_message r
      | none => (step.1, [])
  let e2 := step2.1
  (((mapFind e2.m_sync_requests SR_SET_SCREEN).isStatus .GASC_OK),
    e2, step.2 ++ step2.2)

/-- `Engine::get_screen` (copy-out accessor). -/
def Engine.get_screen (e : Engine) : Screen := e.m_screen

/-- `Engine::get_tracker_state`: the baseline full-state synchronous query
(its reply re-enters the dispatcher as a separate `on_message` step). -/
def Engine.get_tracker_state (e : Engine) : Engine × List Action :=
  e.send_sync .getTrackerState

/-- `Engine::calibration_start`: record the run on the progress tracker
(unconditionally, before any state check), then the synchronous start
request; the correlator slot for the start id decides success. -/
def Engine.calibration_start_op (e : Engine) (point_count : Nat)
    (reply : Option RawMessage) : Bool × Engine × List Action :=
  let e0 := { e with
    m_calibration_proxy := e.m_calibration_proxy.start_calibration point_count }
  let step := e0.send_sync (.calibrationStart point_count)
  let step2 : Engine × List Action :=
    if step.2.isEmpty then (step.1, [])
    else
      match reply with
      | some r => step.1.on_message r
      | none => (step.1, [])
  let e2 := step2.1
  (((mapFind e2.m_sync_requests SR_CALIB_START).isStatus .GASC_OK),
    e2, step.2 ++ step2.2)

/-- `Engine::calibration_point_start`: synchronous point-start request. -/
def Engine.calibration_point_start_op (e : Engine) (x y : Int)
    (reply : Option RawMessage) : Bool × Engine × List Action :=
  let step := e.send_sync (.calibrationPointStart x y)
  let step2 : Engine × List Action :=
    if step.2.isEmpty then (step.1, [])
    else
      match reply with
      | some r => step.1.on_message r
      | none => (step.1, [])
  let e2 := step2.1
  (((mapFind e2.m_sync_requests SR_CALIB_POINT_START).isStatus .GASC_OK),
    e2, step.2 ++ step2.2)

/-- `Engine::calibration_clear`: fire-and-forget. -/
def Engine.calibration_clear_op (e : Engine) : Engine × List Action :=
  e.send_async .calibrationClear

/-- `Engine::calibration_abort`: fire-and-forget. -/
def Engine.calibration_abort_op (e : Engine) : Engine × List Action :=
  e.send_async .calibrationAbort

/-- `Engine::calibration_point_end`: fire-and-forget. -/
def Engine.calibration_point_end_op (e : Engine) : Engine × List Action :=
  e.send_async .calibrationPointEnd

/-- The state `Engine::connect` reaches right after the transport connect
succeeds: host/port recorded, correlator cleared, state running, all four
snapshots zeroed/cleared. -/
def Engine.connectResetState (e : Engine) (host port : String) : Engine :=
  { e with
    m_host := host
    m_port := port
    m_sync_requests := []
    m_state := ApiState.AS_RUNNING
    m_server_proxy := {}
    m_gaze_data := {}
    m_screen := {}
    m_calib_result := e.m_calib_result.clear }

/-- `Engine::connect`: no-op failure unless stopped; record host/port and
clear the correlator; ask the transport to connect (`socket_ok` is its
outcome); on success zero the snapshots, run the version handshake
(`version_reply` and `set_version_reply` are the replies the receive context
dispatches during the two waits), aborting via `disconnect` when the server
version is older than required or the set-version request is not
acknowledged; on full success notify connection-state listeners with `true`
and issue the baseline full-state query. -/
def Engine.connect (e : Engine) (host port : String) (socket_ok : Bool)
    (version_reply set_version_reply : Option RawMessage) :
    Bool × Engine × List Action :=
  if e.m_state ≠ ApiState.AS_STOPPED then (false, e, [])
  else if socket_ok then
    let e1 := e.connectResetState host port
    let gdv := e1.get_default_version version_reply
    if gdv.1 < VERSION then
      let d := gdv.2.1.disconnect
      (false, d.1, Action.SocketConnect :: (gdv.2.2 ++ d.2))
    else
      let sv := gdv.2.1.set_version_op VERSION set_version_reply
      if !sv.1 then
        let d := sv.2.1.disconnect
        (false, d.1, Action.SocketConnect :: (gdv.2.2 ++ sv.2.2 ++ d.2))
      else
        let gts := sv.2.1.get_tracker_state
        (true, gts.1,
          Action.SocketConnect :: (gdv.2.2 ++ sv.2.2 ++
            [Action.NotifyConnectionState true] ++ gts.2))
  else
    (false,
      { e with m_host := host, m_port := port, m_sync_requests := [] },
      [Action.SocketConnect])

/-- The requests handed to the transport (either send flavour), in order. -/
def sentRequests (acts : List Action) : List Request :=
  acts.filterMap fun a =>
    match a with
    | .SocketSend r => some r
    | .SocketSendSync r => some r
    | _ => none

/-- The screen values published to tracker-state listeners, in order. -/
def screenNotifies (acts : List Action) : List Screen :=
  acts.filterMap fun a =>
    match a with
    | .NotifyScreenChanged s => some s
    | _ => none

/-- The tracker connection states published to tracker-state listeners. -/
def trackerStateNotifies (acts : List Action) : List Nat :=
  acts.filterMap fun a =>
    match a with
    | .NotifyTrackerConnection ts => some ts
    | _ => none

/-- The progress values published to calibration-process listeners. -/
def progressNotifies (acts : List Action) : List ℚ :=
  acts.filterMap fun a =>
    match a with
    | .NotifyCalibrationProgress p => some p
    | _ => none

/-- The results published to calibration-result listeners. -/
def calibResultNotifies (acts : List Action) : List (Bool × CalibResult) :=
  acts.filterMap fun a =>
    match a with
    | .NotifyCalibResult b r => some (b, r)
    | _ => none

/-- The raw results published to calibration-process listeners. -/
def processResultNotifies (acts : List Action) : List (Bool × CalibResult) :=
  acts.filterMap fun a =>
    match a with
    | .NotifyCalibProcessResult b r => some (b, r)
    | _ => none

/-! Concrete fixtures used by witnesses and counterexamples. -/

/-- A running engine fresh out of the constructor. -/
def runningEngine : Engine :=
  { Engine.initial with m_state := ApiState.AS_RUNNING }

/-- A calibration/point-end reply carrying no final result. -/
def pointEndNoResult : RawMessage :=
  { category := some .GAC_CALIBRATION, statuscode := some .GASC_OK,
    request := some .GAR_POINTEND, calib_payload := some none }

/-- A failed final calibration result. -/
def failedResult : CalibResult := { result := false, calibpoints := [7] }

/-- A calibration/point-end reply carrying a failed final result. -/
def pointEndFailed : RawMessage :=
  { category := some .GAC_CALIBRATION, statuscode := some .GASC_OK,
    request := some .GAR_POINTEND, calib_payload := some (some failedResult) }

/-- A tracker/get reply reporting protocol version `v` (and otherwise
default state), as dispatched during the version handshake poll. -/
def versionReply (v : Nat) : RawMessage :=
  { category := some .GAC_TRACKER, statuscode := some .GASC_OK,
    request := some .GAR_GET,
    tracker_payload := some
      { server_state := { version := v }, gaze := none, calib := none,
        screen := {} } }

/-- A correlated ok acknowledgement of the set-version request. -/
def okSetVersionReply : RawMessage :=
  { id := some SR_SET_VERSION, category := some .GAC_TRACKER,
    statuscode := some .GASC_OK, request := some .GAR_SET }

/-- A correlated ok acknowledgement of the set-screen request. -/
def okSetScreenReply : RawMessage :=
  { id := some SR_SET_SCREEN, category := some .GAC_TRACKER,
    statuscode := some .GASC_OK, request := some .GAR_SET }

/-- A concrete screen geometry. -/
def screenA : Screen :=
  { screenindex := 1, screenresw := 1920, screenresh := 1080,
    screenpsyw := 510, screenpsyh := 290 }

/-- The engine after: start a 2-point calibration run, dispatch two
point-end events (the second carrying a failed final result, which does not
clear the tracker), then start a second 2-point run. -/
def restartAfterFailure : Engine :=
  let e1 := (runningEngine.calibration_start_op 2 none).2.1
  let e2 := (e1.parse pointEndNoResult).2.1
  let e3 := (e2.parse pointEndFailed).2.1
  (e3.calibration_start_op 2 none).2.1

/-- A fully connected engine: transport connect succeeded, the server
reported version 2 during the handshake poll, and set-version was
acknowledged ok. -/
def connectedEngine : Engine :=
  (Engine.initial.connect "h" "p" true (some (versionReply 2))
    (some okSetVersionReply)).2.1

/-- A stopped engine that still holds a successful set-screen acknowledgement
in its correlator from the previous session: connect, a successful
set-screen call, then disconnect. -/
def staleStoppedEngine : Engine :=
  ((connectedEngine.set_screen_op screenA (some okSetScreenReply)).2.1).disconnect.1

/-- A malformed incoming message: error status on a non-notification reply
(it even carries an id and a description). -/
def malformedRaw : RawMessage :=
  { id := some 5, description := "oops", category := some .GAC_TRACKER,
    statuscode := some .GASC_ERROR }

/-- A calibration-changed notification message. -/
def calibChangedNotif : RawMessage :=
  { category := some .GAC_TRACKER,
    statuscode := some .GASC_CALIBRATION_CHANGE }

/-- A tracker/get payload whose screen and tracker connection state both
differ from a freshly zeroed snapshot. -/
def tgPayloadA : TrackerGetPayload :=
  { server_state := { trackerstate := 1 }, gaze := none, calib := none,
    screen := screenA }

/-- A tracker/get reply carrying `tgPayloadA`. -/
def trackerGetA : RawMessage :=
  { category := some .GAC_TRACKER, statuscode := some .GASC_OK,
    request := some .GAR_GET, tracker_payload := some tgPayloadA }

/-
Helper lemmas shared by the claim theorems.
-/

theorem sentRequests_append (a b : List Action) :
    sentRequests (a ++ b) = sentRequests a ++ sentRequests b := by
  simp [sentRequests]

theorem disconnect_fst_state (e : Engine) :
    e.disconnect.1.m_state = ApiState.AS_STOPPED := by
  unfold Engine.disconnect
  split <;> simp_all

theorem sentRequests_disconnect (e : Engine) :
    sentRequests e.disconnect.2 = [] := by
  unfold Engine.disconnect
  split <;> simp [sentRequests]

theorem on_message_proj (e : Engine) (raw : RawMessage) :
    (e.on_message raw).2 = (e.parse raw).2.2 ∧
    (e.on_message raw).1.m_state = (e.parse raw).2.1.m_state ∧
    (e.on_message raw).1.m_calibration_proxy =
      (e.parse raw).2.1.m_calibration_proxy ∧
    (e.on_message raw).1.m_server_proxy = (e.parse raw).2.1.m_server_proxy ∧
    (e.on_message raw).1.m_gaze_data = (e.parse raw).2.1.m_gaze_data ∧
    (e.on_message raw).1.m_calib_result = (e.parse raw).2.1.m_calib_result ∧
    (e.on_message raw).1.m_screen = (e.parse raw).2.1.m_screen := by
  unfold Engine.on_message
  by_cases h : (e.parse raw).1.has_id = true <;> simp [h]

theorem sentRequests_dispatchTrackerGet (e : Engine) (p : TrackerGetPayload) :
    sentRequests (e.dispatchTrackerGet p).2 = [] := by
  rcases p with ⟨ss, g, c, scr⟩
  cases g <;> cases c <;>
    by_cases h : scr = e.m_screen <;>
      by_cases hts : ss.trackerstate = e.m_server_proxy.trackerstate <;>
        simp [Engine.dispatchTrackerGet, sentRequests, h, hts]

theorem sentRequests_dispatchCalibration (e : Engine) (m : Message)
    (cp : Option (Option CalibResult)) :
    sentRequests (e.dispatchCalibration m cp).2 = [] := by
  rcases m with ⟨mc, mr, ms, mid, md⟩
  rcases cp with _ | (_ | cr) <;>
    cases mr <;>
      simp [Engine.dispatchCalibration, Message.isRequest, sentRequests] <;>
      by_cases hr : cr.result <;>
      simp [hr, sentRequests]

theorem sentRequests_send_sync (e : Engine) (r : Request) :
    sentRequests (e.send_sync r).2 = [] ∨
      sentRequests (e.send_sync r).2 = [r] := by
  unfold Engine.send_sync
  by_cases h : e.m_state ≠ ApiState.AS_STOPPED ∧ r.get_id ≠ -1 <;>
    simp [h, sentRequests]

theorem parse_sends_no_trackerstate (e : Engine) (raw : RawMessage) :
    Request.getTrackerState ∉ sentRequests (e.parse raw).2.2 := by
  rcases raw with ⟨id, desc, cat, sc, req, tp, cp⟩
  cases cat with
  | none => simp [Engine.parse, sentRequests]
  | some c =>
    cases sc with
    | none => simp [Engine.parse, sentRequests]
    | some s =>
      cases s with
      | GASC_ERROR =>
          simp [Engine.parse, Message.isStatus, Message.notificationQ,
            sentRequests]
      | GASC_CALIBRATION_CHANGE =>
          have hred : (Engine.parse e
              ⟨id, desc, some c, some .GASC_CALIBRATION_CHANGE, req, tp, cp⟩).2.2 =
              (e.send_sync (.getChanges
                (notificationValues .GASC_CALIBRATION_CHANGE))).2 := rfl
          rw [hred]
          rcases sentRequests_send_sync e
              (.getChanges (notificationValues .GASC_CALIBRATION_CHANGE)) with h | h <;>
            simp [h]
      | GASC_DISPLAY_CHANGE =>
          have hred : (Engine.parse e
              ⟨id, desc, some c, some .GASC_DISPLAY_CHANGE, req, tp, cp⟩).2.2 =
              (e.send_sync (.getChanges
                (notificationValues .GASC_DISPLAY_CHANGE))).2 := rfl
          rw [hred]
          rcases sentRequests_send_sync e
              (.getChanges (notificationValues .GASC_DISPLAY_CHANGE)) with h | h <;>
            simp [h]
      | GASC_TRACKER_STATE_CHANGE =>
          have hred : (Engine.parse e
              ⟨id, desc, some c, some .GASC_TRACKER_STATE_CHANGE, req, tp, cp⟩).2.2 =
              (e.send_sync (.getChanges
                (notificationValues .GASC_TRACKER_STATE_CHANGE))).2 := rfl
          rw [hred]
          rcases sentRequests_send_sync e
              (.getChanges (notificationValues .GASC_TRACKER_STATE_CHANGE)) with h | h <;>
            simp [h]
      | GASC_OK =>
          rcases req with _ | r
          · simp [Engine.parse, Message.isStatus, Message.notificationQ,
              sentRequests]
          · cases c with
            | GAC_TRACKER =>
                cases r with
                | GAR_GET =>
                    rcases tp with _ | p
                    · simp [Engine.parse, Message.isStatus,
                        Message.notificationQ, Message.isCategory,
                        Message.isRequest, sentRequests]
                    · have hred : (Engine.parse e
                          ⟨id, desc, some .GAC_TRACKER, some .GASC_OK,
                            some .GAR_GET, some p, cp⟩).2.2 =
                          (e.dispatchTrackerGet p).2 := rfl
                      rw [hred, sentRequests_dispatchTrackerGet]
                      simp
                | GAR_SET =>
                    simp [Engine.parse, Message.isStatus, Message.notificationQ,
                      Message.isCategory, Message.isRequest, sentRequests]
                | GAR_START =>
                    simp [Engine.parse, Message.isStatus, Message.notificationQ,
                      Message.isCategory, Message.isRequest, sentRequests]
                | GAR_POINTSTART =>
                    simp [Engine.parse, Message.isStatus, Message.notificationQ,
                      Message.isCategory, Message.isRequest, sentRequests]
                | GAR_POINTEND =>
                    simp [Engine.parse, Message.isStatus, Message.notificationQ,
                      Message.isCategory, Message.isRequest, sentRequests]
                | GAR_ABORT =>
                    simp [Engine.parse, Message.isStatus, Message.notificationQ,
                      Message.isCategory, Message.isRequest, sentRequests]
                | GAR_CLEAR =>
                    simp [Engine.parse, Message.isStatus, Message.notificationQ,
                      Message.isCategory, Message.isRequest, sentRequests]
                | GAR_UNKNOWN =>
                    simp [Engine.parse, Message.isStatus, Message.notificationQ,
                      Message.isCategory, Message.isRequest, sentRequests]
            | GAC_CALIBRATION =>
                have hred : (Engine.parse e
                    ⟨id, desc, some .GAC_CALIBRATION, some .GASC_OK,
                      some r, tp, cp⟩).2.2 =
                    (e.dispatchCalibration
                      { m_category := .GAC_CALIBRATION, m_request := r,
                        m_statuscode := .GASC_OK, m_id := id.getD (-1),
                        m_description := desc } cp).2 := rfl
                rw [hred, sentRequests_dispatchCalibration]
                simp
            | GAC_UNKNOWN =>
                simp [Engine.parse, Message.isStatus, Message.notificationQ,
                  Message.isCategory, sentRequests]

theorem on_message_sends_no_trackerstate (e : Engine) (raw : RawMessage) :
    Request.getTrackerState ∉ sentRequests (e.on_message raw).2 := by
  rw [(on_message_proj e raw).1]
  exact parse_sends_no_trackerstate e raw

theorem dispatchTrackerGet_screen_effects (e : Engine) (p : TrackerGetPayload) :
    (e.dispatchTrackerGet p).1.m_screen = p.screen ∧
    screenNotifies (e.dispatchTrackerGet p).2 =
      (if p.screen = e.m_screen then [] else [p.screen]) := by
  rcases p with ⟨ss, g, c, scr⟩
  cases g <;> cases c <;>
    by_cases h : scr = e.m_screen <;>
      by_cases hts : ss.trackerstate = e.m_server_proxy.trackerstate <;>
        simp [Engine.dispatchTrackerGet, screenNotifies, h, hts]

theorem dispatchTrackerGet_state_effects (e : Engine) (p : TrackerGetPayload) :
    (e.dispatchTrackerGet p).1.m_server_proxy = p.server_state ∧
    trackerStateNotifies (e.dispatchTrackerGet p).2 =
      (if p.server_state.trackerstate = e.m_server_proxy.trackerstate then []
       else [p.server_state.trackerstate]) := by
  rcases p with ⟨ss, g, c, scr⟩
  cases g <;> cases c <;>
    by_cases h : scr = e.m_screen <;>
      by_cases hts : ss.trackerstate = e.m_server_proxy.trackerstate <;>
        simp [Engine.dispatchTrackerGet, trackerStateNotifies, h, hts]

theorem get_default_version_acts (e : Engine) (vr : Option RawMessage)
    (h : e.m_state ≠ ApiState.AS_STOPPED) :
    (e.get_default_version vr).2.2 =
      Action.SocketSend Request.getVersion ::
        (match vr with
         | some r =>
             (Engine.on_message
               { e with m_server_proxy := { e.m_server_proxy with version := 0 } }
               r).2
         | none => []) := by
  unfold Engine.get_default_version Engine.send_async
  cases vr <;> simp [h]

theorem sentRequests_cons_connect (l : List Action) :
    sentRequests (Action.SocketConnect :: l) = sentRequests l := by
  simp [sentRequests]

theorem sentRequests_cons_send (r : Request) (l : List Action) :
    sentRequests (Action.SocketSend r :: l) = r :: sentRequests l := by
  simp [sentRequests]

/-
Claim theorems.
-/

/-- C6: whenever the progress tracker's total point count is 0 (including a
run started with N = 0), `get_progress` takes the guard branch and returns
exactly 0 — no division by zero is performed. -/
theorem get_progress_zero_total (c : CalibrationProxy)
    (h : c.m_point_count = 0) : c.get_progress = 0 := by
  simp [CalibrationProxy.get_progress, h]

/-- Witness for C6: a tracker in a run started with N = 0 that has already
processed one point-end still reports progress 0. -/
theorem get_progress_zero_total_witness :
    ((CalibrationProxy.init.start_calibration 0).point_end).m_point_count = 0 ∧
    ((CalibrationProxy.init.start_calibration 0).point_end).get_progress = 0 :=
  ⟨rfl, get_progress_zero_total _ rfl⟩

/-- C9: `disconnect` is idempotent — from a non-stopped state it transitions
to stopped and tells the transport to disconnect; from the stopped state it
changes nothing; and a second `disconnect` after any `disconnect` is a
no-op. -/
theorem disconnect_idempotent (e : Engine) :
    (e.m_state ≠ ApiState.AS_STOPPED →
      e.disconnect = ({ e with m_state := ApiState.AS_STOPPED },
        [Action.SocketDisconnect])) ∧
    (e.m_state = ApiState.AS_STOPPED → e.disconnect = (e, [])) ∧
    e.disconnect.1.m_state = ApiState.AS_STOPPED ∧
    e.disconnect.1.disconnect = (e.disconnect.1, []) := by
  by_cases h : e.m_state = ApiState.AS_STOPPED <;>
    simp [Engine.disconnect, h]

/-- Witness for C9 at a concrete running engine. -/
theorem disconnect_idempotent_witness :
    runningEngine.disconnect =
      ({ runningEngine with m_state := ApiState.AS_STOPPED },
        [Action.SocketDisconnect]) ∧
    runningEngine.disconnect.1.disconnect = (runningEngine.disconnect.1, []) :=
  ⟨(disconnect_idempotent runningEngine).1 (by decide),
   (disconnect_idempotent runningEngine).2.2.2⟩

/-- C1 (failing behaviour): a calibration run started with N = 2 after an
earlier failed (uncleared) 2-point run publishes progress 3/2 — not k/N =
1/2 — after its first point-end event, because `start_calibration` records
the point count without zeroing the processed count. -/
theorem calibration_restart_progress_not_k_over_n :
    restartAfterFailure.m_calibration_proxy.m_point_count = 2 ∧
    restartAfterFailure.m_calibration_proxy.m_processed_points = 2 ∧
    progressNotifies (restartAfterFailure.parse pointEndNoResult).2.2 =
      [(3 : ℚ)/2] ∧
    ((3 : ℚ)/2 ≠ 1/2) := by
  refine ⟨by decide, by decide, ?_, by norm_num⟩
  have hlist : progressNotifies (restartAfterFailure.parse pointEndNoResult).2.2 =
      [(⟨2, 3, true⟩ : CalibrationProxy).get_progress] := rfl
  have hval : (⟨2, 3, true⟩ : CalibrationProxy).get_progress = (3 : ℚ)/2 := by
    norm_num [CalibrationProxy.get_progress]
  rw [hlist, hval]

/-- C10 (counterexample): a synchronous operation invoked while stopped does
not always return false — a stopped engine whose correlator still holds the
ok acknowledgement of a set-screen request from the previous session makes
`set_screen` return true, while still sending nothing. -/
theorem stopped_set_screen_returns_true :
    staleStoppedEngine.m_state = ApiState.AS_STOPPED ∧
    (staleStoppedEngine.set_screen_op screenA none).1 = true ∧
    sentRequests (staleStoppedEngine.set_screen_op screenA none).2.2 = [] := by
  decide

/-- C10 (amended): every operation invoked while the engine is stopped sends
nothing on the transport; each synchronous operation returns whether the
correlator slot for its request kind holds an ok reply (false on a fresh
engine, where every slot is empty); the fire-and-forget operations change no
state at all. -/
theorem stopped_ops_send_nothing (e : Engine)
    (h : e.m_state = ApiState.AS_STOPPED) (screen : Screen)
    (version pc : Nat) (x y : Int) (reply : Option RawMessage) :
    (e.set_screen_op screen reply).2.2 = [] ∧
    (e.set_screen_op screen reply).1 =
      (mapFind e.m_sync_requests SR_SET_SCREEN).isStatus .GASC_OK ∧
    (e.set_version_op version reply).2.2 = [] ∧
    (e.set_version_op version reply).1 =
      (mapFind e.m_sync_requests SR_SET_VERSION).isStatus .GASC_OK ∧
    (e.calibration_start_op pc reply).2.2 = [] ∧
    (e.calibration_start_op pc reply).1 =
      (mapFind e.m_sync_requests SR_CALIB_START).isStatus .GASC_OK ∧
    (e.calibration_point_start_op x y reply).2.2 = [] ∧
    (e.calibration_point_start_op x y reply).1 =
      (mapFind e.m_sync_requests SR_CALIB_POINT_START).isStatus .GASC_OK ∧
    e.calibration_clear_op = (e, []) ∧
    e.calibration_abort_op = (e, []) ∧
    e.calibration_point_end_op = (e, []) := by
  simp [Engine.set_screen_op, Engine.set_version_op,
    Engine.calibration_start_op, Engine.calibration_point_start_op,
    Engine.calibration_clear_op, Engine.calibration_abort_op,
    Engine.calibration_point_end_op, Engine.send_sync, Engine.send_async, h]

/-- C7: a message whose category or status code cannot be parsed, and a
non-notification message with error status, is discarded silently: no
listener of any category is notified, no transport traffic is issued, and
the lifecycle state, the progress tracker and every snapshot entity (server
state, gaze data, calibration result, screen) are left unchanged. -/
theorem malformed_message_discarded (e : Engine) (raw : RawMessage)
    (h : raw.category = none ∨ raw.statuscode = none ∨
      raw.statuscode = some GazeApiStatusCode.GASC_ERROR) :
    (e.on_message raw).2 = [] ∧
    (e.on_message raw).1.m_state = e.m_state ∧
    (e.on_message raw).1.m_calibration_proxy = e.m_calibration_proxy ∧
    (e.on_message raw).1.m_server_proxy = e.m_server_proxy ∧
    (e.on_message raw).1.m_gaze_data = e.m_gaze_data ∧
    (e.on_message raw).1.m_calib_result = e.m_calib_result ∧
    (e.on_message raw).1.m_screen = e.m_screen := by
  have hm := on_message_proj e raw
  have hp : (e.parse raw).2.1 = e ∧ (e.parse raw).2.2 = [] := by
    rcases raw with ⟨id, desc, cat, sc, req, tp, cp⟩
    rcases h with h | h | h
    · subst h
      exact ⟨rfl, rfl⟩
    · subst h
      cases cat <;> exact ⟨rfl, rfl⟩
    · subst h
      cases cat <;> exact ⟨rfl, rfl⟩
  rw [hp.1, hp.2] at hm
  exact hm

/-- Witness for C7: an error-status tracker reply with an id and a
description changes nothing and notifies nobody. -/
theorem malformed_message_discarded_witness :
    (runningEngine.on_message malformedRaw).2 = [] ∧
    (runningEngine.on_message malformedRaw).1.m_screen =
      runningEngine.m_screen :=
  ⟨(malformed_message_discarded runningEngine malformedRaw
      (Or.inr (Or.inr rfl))).1,
   (malformed_message_discarded runningEngine malformedRaw
      (Or.inr (Or.inr rfl))).2.2.2.2.2.2⟩

/-- C3: a message with one of the three notification status codes makes the
dispatcher (of a non-stopped engine) issue exactly one follow-up synchronous
tracker/get request, whose requested fields are exactly those relevant to
that notification category, and perform no other dispatch action: the
lifecycle state, the progress tracker and all four snapshots are
unchanged. -/
theorem notification_triggers_single_followup (e : Engine) (raw : RawMessage)
    (c : GazeApiCategory) (sc : GazeApiStatusCode)
    (hrun : e.m_state ≠ ApiState.AS_STOPPED)
    (hc : raw.category = some c)
    (hs : raw.statuscode = some sc)
    (hn : sc = GazeApiStatusCode.GASC_CALIBRATION_CHANGE ∨
      sc = GazeApiStatusCode.GASC_DISPLAY_CHANGE ∨
      sc = GazeApiStatusCode.GASC_TRACKER_STATE_CHANGE) :
    (e.parse raw).2.2 =
      [Action.SocketSendSync (Request.getChanges (notificationValues sc))] ∧
    notificationValues GazeApiStatusCode.GASC_CALIBRATION_CHANGE =
      ["calibresult", "iscalibrated", "iscalibrating"] ∧
    notificationValues GazeApiStatusCode.GASC_DISPLAY_CHANGE =
      ["screenindex", "screenresw", "screenresh", "screenpsyw", "screenpsyh"] ∧
    notificationValues GazeApiStatusCode.GASC_TRACKER_STATE_CHANGE =
      ["trackerstate"] ∧
    (e.parse raw).2.1.m_state = e.m_state ∧
    (e.parse raw).2.1.m_calibration_proxy = e.m_calibration_proxy ∧
    (e.parse raw).2.1.m_server_proxy = e.m_server_proxy ∧
    (e.parse raw).2.1.m_gaze_data = e.m_gaze_data ∧
    (e.parse raw).2.1.m_calib_result = e.m_calib_result ∧
    (e.parse raw).2.1.m_screen = e.m_screen := by
  rcases raw with ⟨id, desc, cat, sc0, req, tp, cp⟩
  subst hc; subst hs
  rcases hn with hn | hn | hn <;> subst hn
  · have hred : (Engine.parse e ⟨id, desc, some c,
        some .GASC_CALIBRATION_CHANGE, req, tp, cp⟩).2 =
        e.send_sync (.getChanges
          (notificationValues .GASC_CALIBRATION_CHANGE)) := rfl
    rw [hred]
    simp [Engine.send_sync, Request.get_id, SR_GET_CHANGES, hrun,
      notificationValues]
  · have hred : (Engine.parse e ⟨id, desc, some c,
        some .GASC_DISPLAY_CHANGE, req, tp, cp⟩).2 =
        e.send_sync (.getChanges
          (notificationValues .GASC_DISPLAY_CHANGE)) := rfl
    rw [hred]
    simp [Engine.send_sync, Request.get_id, SR_GET_CHANGES, hrun,
      notificationValues]
  · have hred : (Engine.parse e ⟨id, desc, some c,
        some .GASC_TRACKER_STATE_CHANGE, req, tp, cp⟩).2 =
        e.send_sync (.getChanges
          (notificationValues .GASC_TRACKER_STATE_CHANGE)) := rfl
    rw [hred]
    simp [Engine.send_sync, Request.get_id, SR_GET_CHANGES, hrun,
      notificationValues]

/-- Witness for C3: a calibration-changed notification on a running engine
issues exactly the calibration-fields follow-up query. -/
theorem notification_triggers_single_followup_witness :
    (runningEngine.parse calibChangedNotif).2.2 =
      [Action.SocketSendSync (Request.getChanges
        ["calibresult", "iscalibrated", "iscalibrating"])] ∧
    (runningEngine.parse calibChangedNotif).2.1.m_screen =
      runningEngine.m_screen := by
  have h := notification_triggers_single_followup runningEngine
    calibChangedNotif GazeApiCategory.GAC_TRACKER
    GazeApiStatusCode.GASC_CALIBRATION_CHANGE
    (by decide) rfl rfl (Or.inl rfl)
  exact ⟨by rw [h.1, h.2.1], h.2.2.2.2.2.2.2.2.2⟩

/-- C4: a tracker/get reply whose parsed screen geometry differs by value
from the current screen snapshot updates the snapshot to the parsed value
and publishes exactly one screen-change notification; a subsequent
tracker/get reply carrying identical screen geometry publishes none and
leaves the snapshot unchanged. -/
theorem tracker_get_screen_change_notify (e : Engine) (raw raw2 : RawMessage)
    (p p2 : TrackerGetPayload)
    (h1 : raw.category = some GazeApiCategory.GAC_TRACKER)
    (h2 : raw.statuscode = some GazeApiStatusCode.GASC_OK)
    (h3 : raw.request = some GazeApiRequest.GAR_GET)
    (h4 : raw.tracker_payload = some p)
    (hchg : p.screen ≠ e.m_screen)
    (g1 : raw2.category = some GazeApiCategory.GAC_TRACKER)
    (g2 : raw2.statuscode = some GazeApiStatusCode.GASC_OK)
    (g3 : raw2.request = some GazeApiRequest.GAR_GET)
    (g4 : raw2.tracker_payload = some p2)
    (hsame : p2.screen = p.screen) :
    screenNotifies (e.parse raw).2.2 = [p.screen] ∧
    (e.parse raw).2.1.m_screen = p.screen ∧
    screenNotifies ((e.parse raw).2.1.parse raw2).2.2 = [] ∧
    ((e.parse raw).2.1.parse raw2).2.1.m_screen = p.screen := by
  rcases raw with ⟨id, desc, cat, sc, req, tp, cp⟩
  subst h1; subst h2; subst h3; subst h4
  rcases raw2 with ⟨id2, desc2, cat2, sc2, req2, tp2, cp2⟩
  subst g1; subst g2; subst g3; subst g4
  have hred : (Engine.parse e ⟨id, desc, some .GAC_TRACKER, some .GASC_OK,
      some .GAR_GET, some p, cp⟩).2 = e.dispatchTrackerGet p := rfl
  rw [hred]
  have hred2 : ∀ e' : Engine, (Engine.parse e' ⟨id2, desc2, some .GAC_TRACKER,
      some .GASC_OK, some .GAR_GET, some p2, cp2⟩).2 =
      e'.dispatchTrackerGet p2 := fun _ => rfl
  rw [hred2]
  have hfst := dispatchTrackerGet_screen_effects e p
  have hsnd := dispatchTrackerGet_screen_effects (e.dispatchTrackerGet p).1 p2
  refine ⟨?_, hfst.1, ?_, ?_⟩
  · rw [hfst.2, if_neg hchg]
  · rw [hsnd.2, hfst.1, if_pos hsame]
  · rw [hsnd.1, hsame]

/-- Witness for C4: the same tracker/get reply dispatched twice to a fresh
running engine notifies the new screen once, then never again. -/
theorem tracker_get_screen_change_notify_witness :
    screenNotifies (runningEngine.parse trackerGetA).2.2 = [screenA] ∧
    (runningEngine.parse trackerGetA).2.1.m_screen = screenA ∧
    screenNotifies
      ((runningEngine.parse trackerGetA).2.1.parse trackerGetA).2.2 = [] ∧
    ((runningEngine.parse trackerGetA).2.1.parse trackerGetA).2.1.m_screen =
      screenA :=
  tracker_get_screen_change_notify runningEngine trackerGetA trackerGetA
    tgPayloadA tgPayloadA rfl rfl rfl rfl (by decide) rfl rfl rfl rfl rfl

/-- C5: a tracker/get reply whose parsed tracker connection state differs
from the prior snapshot value produces exactly one tracker-state-changed
notification; the notified value is the new state (the snapshot is updated
to it before notifying), so together with the prior snapshot it represents
the transition from the prior state to the new state in the correct
order. -/
theorem tracker_get_state_change_notify (e : Engine) (raw : RawMessage)
    (p : TrackerGetPayload)
    (h1 : raw.category = some GazeApiCategory.GAC_TRACKER)
    (h2 : raw.statuscode = some GazeApiStatusCode.GASC_OK)
    (h3 : raw.request = some GazeApiRequest.GAR_GET)
    (h4 : raw.tracker_payload = some p)
    (hchg : p.server_state.trackerstate ≠ e.m_server_proxy.trackerstate) :
    trackerStateNotifies (e.parse raw).2.2 = [p.server_state.trackerstate] ∧
    (e.parse raw).2.1.m_server_proxy = p.server_state := by
  rcases raw with ⟨id, desc, cat, sc, req, tp, cp⟩
  subst h1; subst h2; subst h3; subst h4
  have hred : (Engine.parse e ⟨id, desc, some .GAC_TRACKER, some .GASC_OK,
      some .GAR_GET, some p, cp⟩).2 = e.dispatchTrackerGet p := rfl
  rw [hred]
  have hst := dispatchTrackerGet_state_effects e p
  exact ⟨by rw [hst.2, if_neg hchg], hst.1⟩

/-- Witness for C5: a reply changing the tracker state from 0 to 1 notifies
exactly once with the new value 1. -/
theorem tracker_get_state_change_notify_witness :
    trackerStateNotifies (runningEngine.parse trackerGetA).2.2 = [1] ∧
    (runningEngine.parse trackerGetA).2.1.m_server_proxy =
      tgPayloadA.server_state :=
  tracker_get_state_change_notify runningEngine trackerGetA tgPayloadA
    rfl rfl rfl rfl (by decide)

/-- C8: a calibration/point-end reply carrying a failed final result leaves
the calibration-result snapshot unchanged, notifies no calibration-result
listener, does not reset the progress tracker (it only advances it by the
point-end), and still notifies calibration-process listeners exactly once
with the raw failed result (besides the usual progress publication). -/
theorem pointend_failed_result_effects (e : Engine) (raw : RawMessage)
    (cr : CalibResult)
    (h1 : raw.category = some GazeApiCategory.GAC_CALIBRATION)
    (h2 : raw.statuscode = some GazeApiStatusCode.GASC_OK)
    (h3 : raw.request = some GazeApiRequest.GAR_POINTEND)
    (h4 : raw.calib_payload = some (some cr))
    (h5 : cr.result = false) :
    (e.parse raw).2.1.m_calib_result = e.m_calib_result ∧
    calibResultNotifies (e.parse raw).2.2 = [] ∧
    (e.parse raw).2.1.m_calibration_proxy = e.m_calibration_proxy.point_end ∧
    processResultNotifies (e.parse raw).2.2 = [(false, cr)] ∧
    progressNotifies (e.parse raw).2.2 =
      [e.m_calibration_proxy.point_end.get_progress] := by
  rcases raw with ⟨id, desc, cat, sc, req, tp, cp⟩
  subst h1; subst h2; subst h3; subst h4
  have hred : (Engine.parse e ⟨id, desc, some .GAC_CALIBRATION, some .GASC_OK,
      some .GAR_POINTEND, tp, some (some cr)⟩).2 =
      e.dispatchCalibration
        { m_category := .GAC_CALIBRATION, m_request := .GAR_POINTEND,
          m_statuscode := .GASC_OK, m_id := id.getD (-1),
          m_description := desc }
        (some (some cr)) := rfl
  rw [hred]
  simp [Engine.dispatchCalibration, Message.isRequest, h5,
    calibResultNotifies, processResultNotifies, progressNotifies]

/-- Witness for C8 at a running engine and the concrete failed result. -/
theorem pointend_failed_result_effects_witness :
    (runningEngine.parse pointEndFailed).2.1.m_calib_result =
      runningEngine.m_calib_result ∧
    calibResultNotifies (runningEngine.parse pointEndFailed).2.2 = [] ∧
    processResultNotifies (runningEngine.parse pointEndFailed).2.2 =
      [(false, failedResult)] := by
  have h := pointend_failed_result_effects runningEngine pointEndFailed
    failedResult rfl rfl rfl rfl rfl
  exact ⟨h.1, h.2.1, h.2.2.2.1⟩

/-- C2: when `connect` is called on a stopped engine, the transport connect
succeeds, but the version observed during the handshake poll is older than
the required protocol version, `connect` returns failure, the engine ends in
the stopped state, and the baseline full-state query (`get_tracker_state`)
is never handed to the transport. -/
theorem connect_rejects_old_version (e : Engine) (host port : String)
    (vr sr : Option RawMessage)
    (h0 : e.m_state = ApiState.AS_STOPPED)
    (h1 : ((e.connectResetState host port).get_default_version vr).1 <
      VERSION) :
    (e.connect host port true vr sr).1 = false ∧
    (e.connect host port true vr sr).2.1.m_state = ApiState.AS_STOPPED ∧
    Request.getTrackerState ∉
      sentRequests (e.connect host port true vr sr).2.2 := by
  have hc : e.connect host port true vr sr =
      (false,
        ((e.connectResetState host port).get_default_version vr).2.1.disconnect.1,
        Action.SocketConnect ::
          (((e.connectResetState host port).get_default_version vr).2.2 ++
            ((e.connectResetState host port).get_default_version
              vr).2.1.disconnect.2)) := by
    unfold Engine.connect
    simp [h0, h1]
  rw [hc]
  refine ⟨rfl, disconnect_fst_state _, ?_⟩
  have hacts := get_default_version_acts (e.connectResetState host port) vr
    (by simp [Engine.connectResetState])
  rcases vr with _ | r
  · intro hmem
    rw [hacts, sentRequests_cons_connect, sentRequests_append,
      sentRequests_cons_send, sentRequests_disconnect] at hmem
    simp [sentRequests] at hmem
  · intro hmem
    rw [hacts, sentRequests_cons_connect, sentRequests_append,
      sentRequests_cons_send, sentRequests_disconnect] at hmem
    simp at hmem
    exact on_message_sends_no_trackerstate _ r hmem

/-- Witness for C2: a server reporting version 1 (required: 2) makes connect
fail, stop, and skip the baseline query. -/
theorem connect_rejects_old_version_witness :
    (Engine.initial.connect "h" "p" true (some (versionReply 1)) none).1 =
      false ∧
    (Engine.initial.connect "h" "p" true (some (versionReply 1))
      none).2.1.m_state = ApiState.AS_STOPPED ∧
    Request.getTrackerState ∉ sentRequests
      (Engine.initial.connect "h" "p" true (some (versionReply 1)) none).2.2 :=
  connect_rejects_old_version Engine.initial "h" "p" (some (versionReply 1))
    none rfl (by decide)

/-- Witness for the amended C10 at a fresh (stopped) engine. -/
theorem stopped_ops_send_nothing_witness :
    (Engine.initial.set_screen_op screenA none).2.2 = [] ∧
    (Engine.initial.set_screen_op screenA none).1 =
      (mapFind Engine.initial.m_sync_requests SR_SET_SCREEN).isStatus .GASC_OK ∧
    Engine.initial.calibration_point_end_op = (Engine.initial, []) :=
  ⟨(stopped_ops_send_nothing Engine.initial rfl screenA 0 0 0 0 none).1,
   (stopped_ops_send_nothing Engine.initial rfl screenA 0 0 0 0 none).2.1,
   (stopped_ops_send_nothing Engine.initial rfl screenA 0 0 0 0 none).2.2.2.2.2.2.2.2.2.2⟩

end gtl
